import Mathlib

/-!
Verification of the web-scraper pipeline: a shallow embedding of the
pipeline nodes of src/agent/utils/nodes.py and of the job supervisor of
src/main.py, with theorems settling the specified properties.

Python strings are modelled as Lean strings (both are character
sequences; slicing s[:n] is String.take). External capabilities
(the crawl/batch-scrape service, the summarization model, the stdlib
JSON parser and regex engine) are parameters of the node functions,
as the repository treats them as opaque collaborators.
-/

namespace WebScraper

set_option maxRecDepth 4096

/-- The structured response shape required from the summarization
capability by the format node: a JSON object with title and
description fields. -/
structure Summary where
  title : String
  description : String
deriving DecidableEq

/-- One entry appended to formatted_data by the format node: the page
url together with the parsed (or fallback) response. -/
structure FormattedItem where
  url : String
  response : Summary
deriving DecidableEq

/-- The metadata attribute of a fetched Document, as read by format
(only the url attribute is consumed; a missing url attribute is read
as the empty string by the code, so it is modelled as a string). -/
structure PageMetadata where
  url : String
deriving DecidableEq

/-- A Document returned by the batch-scrape capability, as read by
format. The code guards both attributes with hasattr: a missing
metadata is None (Option), and a missing markdown is defaulted to ""
before the falsy test, so missing and empty markdown coincide. -/
structure Page where
  metadata : Option PageMetadata
  markdown : String
deriving DecidableEq

/-- The pipeline state threaded through the graph nodes: exactly the
fields constructed by the first node of src/agent/utils/nodes.py
(lines 13-22). The result output channel written by save is modelled
separately as the return value of save. -/
structure GraphState where
  url : String
  url_batches : List (List String)
  scraped_data : List Page
  formatted_data : List FormattedItem
  error : String
  retry_count : Nat
  failed_node : String
deriving DecidableEq

/-- The first pipeline node of src/agent/utils/nodes.py (named
initialize there, lines 13-22): builds the fresh GraphState for a run
from the input url. -/
def init_state (url : String) : GraphState :=
  { url := url
    url_batches := []
    scraped_data := []
    formatted_data := []
    error := ""
    retry_count := 0
    failed_node := "" }

/-- The batch-planning comprehension inside crawl (nodes.py line 62):
limited_urls[i : i + B] for i in range(0, len(limited_urls), B).
Slicing from index 0 in steps of B is chunking: take B, recurse on
drop B. Python range raises on step 0, so B = 0 is outside the
contract of the caller; the definition returns [] there to stay total. -/
def planBatches (B : Nat) (urls : List String) : List (List String) :=
  if h : B = 0 ∨ urls = [] then []
  else urls.take B :: planBatches B (urls.drop B)
termination_by urls.length
decreasing_by
  push_neg at h
  simp only [List.length_drop]
  have h1 : 0 < B := Nat.pos_of_ne_zero h.1
  have h2 : 0 < urls.length := List.length_pos.mpr h.2
  omega

/-- A Document of the response data of the crawl capability: only the links
attribute is read (defaulted to [] when absent, as in the code). -/
structure CrawlDoc where
  links : List String
deriving DecidableEq

/-- The crawl node of nodes.py (lines 24-70). External inputs are
parameters: crawlData models response.data of the discovery capability
(a missing data attribute is the empty list, as in the code); is_valid
models is_valid_url of agent/utils/helpers.py; URL_LIMIT and
BATCH_LIMIT model the two environment variables (read as ints). -/
def crawl (is_valid : String → String → Bool) (URL_LIMIT BATCH_LIMIT : Nat)
    (crawlData : List CrawlDoc) (state : GraphState) : GraphState :=
  match crawlData with
  | [] => { state with url_batches := [] }
  | first_doc :: _ =>
    let valid_urls := first_doc.links.filter (fun u => is_valid u state.url)
    let limited_urls := valid_urls.take URL_LIMIT
    { state with url_batches := planBatches BATCH_LIMIT limited_urls }

/-- The scrap node of nodes.py (lines 72-91). fetchData models the
batch-scrape capability: the data attribute of the job object returned
for the requested batch (a missing attribute is []). The first batch
is popped only inside the `if data:` branch, i.e. only when the
capability returned a non-empty data list. -/
def scrap (fetchData : List String → List Page) (state : GraphState) : GraphState :=
  match state.url_batches with
  | [] => { state with scraped_data := [] }
  | current_batch :: rest =>
    let data := fetchData current_batch
    if data.isEmpty then
      { state with scraped_data := [] }
    else
      { state with scraped_data := data, url_batches := rest }

/-- The truncation step of format (nodes.py line 107):
markdown[:2000] if markdown and len(markdown) > 2000 else markdown.
An empty markdown fails the length test as well, so the truthiness
guard is subsumed by the length comparison. -/
def truncateContent (markdown : String) : String :=
  if markdown.length > 2000 then markdown.take 2000 else markdown

/-- The cleanup format applies before JSON parsing (nodes.py lines
133-139): content_str = response.content.strip(); then, when the
regex search for a fenced code block matches, the captured group
replaces content_str. fenceExtract models the stdlib regex engine
(re.search with the fenced-block pattern): some group on a match,
none otherwise. -/
def cleanContent (fenceExtract : String → Option String) (content : String) : String :=
  let content_str := content.trim
  match fenceExtract content_str with
  | some grp => grp
  | none => content_str

/-- One iteration of the per-page loop of the format node (nodes.py
lines 96-154), producing the entries appended to formatted_data for
that Document. llmContent models the summarization capability: the
content string llm.invoke returns for the prompt built around the
(truncated) markdown; a missing response and an empty content string
are both falsy in the code, so both are the empty string here.
parseJson models stdlib json.loads of the cleaned string producing the
required {title, description} object: some s on success, none when
json.loads raises JSONDecodeError (the only exception caught; it is
absorbed into the fallback entry, so the function is total). -/
def formatPage (fenceExtract : String → Option String)
    (parseJson : String → Option Summary)
    (llmContent : String → String)
    (content : Page) : List FormattedItem :=
  match content.metadata with
  | none => []
  | some metadata =>
    let url := metadata.url
    if content.markdown = "" then []
    else
      let markdown := truncateContent content.markdown
      let response := llmContent markdown
      if response = "" then []
      else
        match parseJson (cleanContent fenceExtract response) with
        | some parsed_response => [{ url := url, response := parsed_response }]
        | none =>
          [{ url := url
             response := { title := "Error parsing content"
                           description := markdown.take 200 } }]

/-- The format node of nodes.py (lines 93-156): runs the per-page loop
over scraped_data and writes the collected list to formatted_data. -/
def format (fenceExtract : String → Option String)
    (parseJson : String → Option Summary)
    (llmContent : String → String)
    (state : GraphState) : GraphState :=
  { state with
    formatted_data :=
      (state.scraped_data.map (formatPage fenceExtract parseJson llmContent)).flatten }

/-- The terminal record built by save: the output dict with source_url
and the formatted data list. -/
structure OutputRecord where
  source_url : String
  data : List FormattedItem
deriving DecidableEq

/-- The save node of nodes.py (lines 158-176). First component: the
records written to the persistence sink (the scraped_data.json file);
second component: the result output channel of the returned state
update — { result := output } on the write path, and the plain state,
which carries no result entry, otherwise. The Python condition
`if source_url and formatted_data` is string/list truthiness. -/
def save (state : GraphState) : List OutputRecord × Option OutputRecord :=
  if state.url ≠ "" ∧ state.formatted_data ≠ [] then
    let output : OutputRecord := { source_url := state.url, data := state.formatted_data }
    ([output], some output)
  else ([], none)

/-- The error_handler node of nodes.py (lines 178-182): increments
retry_count and clears error. -/
def error_handler (state : GraphState) : GraphState :=
  { state with retry_count := state.retry_count + 1, error := "" }

/-- Modelled from the spec: try_except_decorator of
src/agent/utils/helpers.py is not among the available sources. Spec
section 4.6 (Retry Supervisor) specifies the wrapper: on successful
stage completion clear lastError/failedStage and pass the stage output
on; on a stage fault set failedStage to the stage identifier, set
lastError to the fault description and leave the state otherwise
untouched. fault models whether the wrapped body raised and with which
description. -/
def try_except (identifier : String) (node : GraphState → GraphState)
    (fault : Option String) (state : GraphState) : GraphState :=
  match fault with
  | some msg => { state with error := msg, failed_node := identifier }
  | none =>
    let s := node state
    { s with error := "", failed_node := "" }

/-- Modelled from the spec: the stage identifier constants CRAWL,
SCRAP, FORMAT, SAVE of src/agent/utils/constants.py are not among the
available sources; they are opaque distinct stage names, modelled as
the evident strings. -/
def CRAWL : String := "crawl"

/-- Modelled from the spec: see CRAWL. -/
def SCRAP : String := "scrap"

/-- Modelled from the spec: see CRAWL. -/
def FORMAT : String := "format"

/-- Modelled from the spec: see CRAWL. -/
def SAVE : String := "save"

/-- JobStatus of src/main.py (a str Enum with the four lifecycle
values). -/
inductive JobStatus
  | pending
  | running
  | completed
  | failed
deriving DecidableEq

/-- The value of a str Enum member as rendered in the f-strings of
src/main.py. -/
def JobStatus.toStr : JobStatus → String
  | .pending => "pending"
  | .running => "running"
  | .completed => "completed"
  | .failed => "failed"

/-- One record of jobs_store in src/main.py, with the keys written at
creation (lines 121-129). The result entry receives
result.get("result", ...) with the empty dict as default on
completion; Python None and the empty dict are both falsy at every
read site, so both are modelled as none. -/
structure Job where
  job_id : String
  url : String
  status : JobStatus
  created_at : String
  completed_at : Option String
  result : Option OutputRecord
  error : Option String
deriving DecidableEq

/-- jobs_store, the in-memory job dict of src/main.py, as an
association list keyed by job id (insertion under fresh uuid keys, so
keys are unique). -/
abbrev JobsStore := List (String × Job)

/-- A Python dict read jobs_store[job_id] (as an Option), which also
decides the membership test `job_id in jobs_store`. -/
def storeLookup (store : JobsStore) (job_id : String) : Option Job :=
  (store.find? (fun p => p.1 == job_id)).map (fun p => p.2)

/-- A fastapi HTTPException as observed by the caller: status code and
detail string. -/
structure HttpError where
  status_code : Nat
  detail : String
deriving DecidableEq

/-- The f-string rendering of the stored error entry in
get_job_result: job.get("error", "Unknown error") returns the stored
value whenever the key is present — and the error key is always
present in store records — so a stored None renders as "None" and the
"Unknown error" default is unreachable. -/
def errorText : Option String → String
  | some e => e
  | none => "None"

/-- The GET /jobs/id/result handler get_job_result of src/main.py
(lines 159-186): 404 for an unknown id, 425 while the job is pending
or running, 500 with the stored error while it is failed, 404 when a
completed job has a falsy result, otherwise the result record. -/
def get_job_result (store : JobsStore) (job_id : String) :
    Except HttpError OutputRecord :=
  match storeLookup store job_id with
  | none => .error { status_code := 404, detail := "Job not found" }
  | some job =>
    if job.status = JobStatus.pending ∨ job.status = JobStatus.running then
      .error { status_code := 425
               detail := "Job is still " ++ job.status.toStr ++ ". Please wait for completion." }
    else if job.status = JobStatus.failed then
      .error { status_code := 500, detail := "Job failed: " ++ errorText job.error }
    else
      match job.result with
      | none => .error { status_code := 404, detail := "No result found for this job" }
      | some r => .ok r

/-- The Python exceptions that can escape a statement of
run_scraping_job: a KeyError from an item write on a deleted job
record, or the exception graph.invoke raised. -/
inductive PyError
  | keyError (key : String)
  | runtimeError (msg : String)
deriving DecidableEq

/-- str(e) as interpolated by the except handler of run_scraping_job:
the exact rendering
is irrelevant to the claims, only that it is some description string. -/
def pyErrorText : PyError → String
  | .keyError k => "KeyError: " ++ k
  | .runtimeError m => m

/-- A Python item write jobs_store[job_id][field] = value: updates the
record in place when the key exists, raises KeyError otherwise. -/
def dictSetJob (store : JobsStore) (job_id : String) (f : Job → Job) :
    Except PyError JobsStore :=
  match storeLookup store job_id with
  | some _ => .ok (store.map (fun p => if p.1 == job_id then (p.1, f p.2) else p))
  | none => .error (.keyError job_id)

/-- One statement inside a try block of run_scraping_job: performs the
item write unless an exception is already pending; a raised KeyError
becomes the pending exception and the store keeps its current value. -/
def tryStep (s : JobsStore × Option PyError) (job_id : String) (f : Job → Job) :
    JobsStore × Option PyError :=
  match s.2 with
  | some _ => s
  | none =>
    match dictSetJob s.1 job_id f with
    | .ok store2 => (store2, none)
    | .error e => (s.1, some e)

/-- The background task run_scraping_job of src/main.py (lines 73-96),
viewed from the job store. graphOutcome models the awaited
graph.invoke call: ok with the result channel of the final state when
the run finishes normally, error with the exception text when it
raises. now models datetime.utcnow().isoformat(). The first statement
of the try block already writes RUNNING; on any exception in the try
block the except handler performs its three writes on the current
store, and an exception raised by those writes escapes the function.
The second component of the value is that escaping exception, if any:
it crashes the background task. -/
def run_scraping_job (store : JobsStore) (job_id : String)
    (graphOutcome : Except String (Option OutputRecord)) (now : String) :
    JobsStore × Option PyError :=
  let t0 := tryStep (store, none) job_id (fun j => { j with status := JobStatus.running })
  let t1 :=
    match t0.2 with
    | some _ => t0
    | none =>
      match graphOutcome with
      | .error msg => (t0.1, some (PyError.runtimeError msg))
      | .ok res =>
        let a := tryStep t0 job_id (fun j => { j with status := JobStatus.completed })
        let b := tryStep a job_id (fun j => { j with completed_at := some now })
        tryStep b job_id (fun j => { j with result := res })
  match t1.2 with
  | none => (t1.1, none)
  | some e =>
    let a := tryStep (t1.1, none) job_id (fun j => { j with status := JobStatus.failed })
    let b := tryStep a job_id (fun j => { j with completed_at := some now })
    tryStep b job_id (fun j => { j with error := some (pyErrorText e) })

/-- The str() rendering of a fastapi HTTPException, as interpolated by
the except clause of scrape_sync. -/
def httpErrorText (e : HttpError) : String :=
  toString e.status_code ++ ": " ++ e.detail

/-- The POST /scrape/sync handler scrape_sync of src/main.py (lines
188-218) after graph.invoke has returned its final state normally:
res is the result channel of that state (an absent key and an empty
dict are both falsy, modelled none). The 500 raised inside the try
when no data came back is itself an Exception, so the except clause
catches it and re-raises a wrapping 500; either way the caller
observes status 500. -/
def scrape_sync_finish (res : Option OutputRecord) : Except HttpError OutputRecord :=
  let tryBody : Except HttpError OutputRecord :=
    match res with
    | none => .error { status_code := 500
                       detail := "Scraping completed but no data was returned" }
    | some r => .ok r
  match tryBody with
  | .ok r => .ok r
  | .error e =>
    .error { status_code := 500, detail := "Scraping failed: " ++ httpErrorText e }

/-! Helper lemmas about the batch planner. -/

/-- Unfolding planBatches on the empty list. -/
theorem planBatches_nil (B : Nat) : planBatches B [] = [] := by
  rw [planBatches]
  simp

/-- Unfolding planBatches on a non-empty list with a positive batch
size. -/
theorem planBatches_cons (B : Nat) (urls : List String) (hB : B ≠ 0) (h : urls ≠ []) :
    planBatches B urls = urls.take B :: planBatches B (urls.drop B) := by
  rw [planBatches]
  simp [hB, h]

/-- Concatenating the planned batches in order reproduces the input. -/
theorem planBatches_flatten (B : Nat) (urls : List String) (hB : B ≠ 0) :
    (planBatches B urls).flatten = urls := by
  induction urls using planBatches.induct B with
  | case1 urls h =>
    rcases h with h | h
    · exact absurd h hB
    · subst h
      simp [planBatches_nil]
  | case2 urls h ih =>
    push_neg at h
    rw [planBatches_cons B urls h.1 h.2]
    simp [ih, List.take_append_drop]

/-- Every planned batch is non-empty and no longer than the batch
size. -/
theorem planBatches_batches (B : Nat) (urls : List String) (hB : B ≠ 0) :
    ∀ b ∈ planBatches B urls, b ≠ [] ∧ b.length ≤ B := by
  induction urls using planBatches.induct B with
  | case1 urls h =>
    rcases h with h | h
    · exact absurd h hB
    · subst h
      simp [planBatches_nil]
  | case2 urls h ih =>
    push_neg at h
    rw [planBatches_cons B urls h.1 h.2]
    intro b hb
    rcases List.mem_cons.mp hb with hb | hb
    · subst hb
      refine ⟨?_, List.length_take_le B urls⟩
      simp only [ne_eq, List.take_eq_nil_iff]
      push_neg
      exact ⟨h.1, h.2⟩
    · exact ih b hb

/-- The number of planned batches is the ceiling of length over batch
size. -/
theorem planBatches_count (B : Nat) (urls : List String) (hB : B ≠ 0) :
    (planBatches B urls).length = (urls.length + B - 1) / B := by
  induction urls using planBatches.induct B with
  | case1 urls h =>
    rcases h with h | h
    · exact absurd h hB
    · subst h
      rw [planBatches_nil]
      have hlt : B - 1 < B := Nat.sub_lt (Nat.pos_of_ne_zero hB) Nat.one_pos
      simp [Nat.div_eq_of_lt hlt]
  | case2 urls h ih =>
    push_neg at h
    rw [planBatches_cons B urls h.1 h.2]
    have hB0 : 0 < B := Nat.pos_of_ne_zero h.1
    have hn : 0 < urls.length := List.length_pos.mpr h.2
    simp only [List.length_cons, ih, List.length_drop]
    have h2 : urls.length + B - 1 = urls.length - 1 + B := by omega
    rw [h2, Nat.add_div_right _ hB0]
    rcases le_or_lt urls.length B with hle | hlt
    · have e1 : urls.length - B + B - 1 = B - 1 := by omega
      have e2 : (B - 1) / B = 0 := Nat.div_eq_of_lt (by omega)
      have e3 : (urls.length - 1) / B = 0 := Nat.div_eq_of_lt (by omega)
      rw [e1, e2, e3]
    · have e1 : urls.length - B + B - 1 = urls.length - 1 := by omega
      rw [e1]

/-! Claim theorems. -/

/-- C5: for every non-empty URL sequence and every batch size at least
1, the planned batches concatenate in order back to the input exactly,
every batch is non-empty of length at most the batch size, and the
number of batches is the ceiling of length over batch size. -/
theorem C5_batch_planner (B : Nat) (urls : List String)
    (hB : 1 ≤ B) (hu : urls ≠ []) :
    (planBatches B urls).flatten = urls ∧
    (∀ b ∈ planBatches B urls, b ≠ [] ∧ b.length ≤ B) ∧
    (planBatches B urls).length = (urls.length + B - 1) / B := by
  have hB0 : B ≠ 0 := Nat.one_le_iff_ne_zero.mp hB
  exact ⟨planBatches_flatten B urls hB0, planBatches_batches B urls hB0,
    planBatches_count B urls hB0⟩

/-- C5 witness: the planner on a concrete three-element input with
batch size 2. -/
theorem C5_batch_planner_witness :
    (planBatches 2 ["a", "b", "c"]).flatten = ["a", "b", "c"] ∧
    (∀ b ∈ planBatches 2 ["a", "b", "c"], b ≠ [] ∧ b.length ≤ 2) ∧
    (planBatches 2 ["a", "b", "c"]).length = (3 + 2 - 1) / 2 :=
  C5_batch_planner 2 ["a", "b", "c"] (by decide) (by decide)

/-- C1 counterexample: a state with one pending batch and a fetch
capability that returns no data for it. After scrap, scraped_data is
empty as the claim says, but the batch is NOT consumed: url_batches
still holds it, refuting the claim that the batch is removed even
when the fetch returns no data. -/
theorem C1_counterexample :
    (scrap (fun _ => [])
        { init_state "https://example.com" with
          url_batches := [["https://example.com/a"]] }).scraped_data = [] ∧
    (scrap (fun _ => [])
        { init_state "https://example.com" with
          url_batches := [["https://example.com/a"]] }).url_batches
      = [["https://example.com/a"]] ∧
    (scrap (fun _ => [])
        { init_state "https://example.com" with
          url_batches := [["https://example.com/a"]] }).url_batches ≠ [] := by
  refine ⟨rfl, rfl, ?_⟩
  decide

/-- C1 amended: scrap consumes the first batch exactly when the fetch
capability returns a non-empty data list for it; when the fetch
returns no data, scraped_data becomes empty and the batch is left at
the front of url_batches, not consumed. -/
theorem C1_scrap_consumes_iff_data (fetchData : List String → List Page)
    (state : GraphState) (batch : List String) (rest : List (List String))
    (h : state.url_batches = batch :: rest) :
    (fetchData batch = [] →
      scrap fetchData state = { state with scraped_data := [] }) ∧
    (fetchData batch ≠ [] →
      scrap fetchData state =
        { state with scraped_data := fetchData batch, url_batches := rest }) := by
  constructor
  · intro hempty
    simp [scrap, h, hempty]
  · intro hsome
    simp [scrap, h, List.isEmpty_iff, hsome]

/-- C1 witness: the amended theorem applied at a concrete state with
two batches and a fetch returning no data. -/
theorem C1_scrap_consumes_iff_data_witness :
    scrap (fun _ => ([] : List Page))
        { init_state "https://example.com" with url_batches := [["a"], ["b"]] }
      = { init_state "https://example.com" with
          url_batches := [["a"], ["b"]], scraped_data := [] } :=
  (C1_scrap_consumes_iff_data (fun _ => []) _ ["a"] [["b"]] rfl).1 rfl

/-- C2 counterexample: a concrete run fragment in which scrap faults
once (the retry wrapper records the fault, error_handler raises
retry_count to 1), the retried scrap then succeeds and the pipeline
advances past that point (the batch is consumed and the stage
completed with its failure bookkeeping cleared) — yet retry_count is
still 1, not reset to 0 as the claim states. -/
theorem C2_counterexample :
    (let s0 : GraphState :=
      { init_state "https://example.com" with
        url_batches := [["https://example.com/a"]] }
    let s1 := try_except SCRAP (scrap (fun _ => [])) (some "network error") s0
    let s2 := error_handler s1
    let s3 := try_except SCRAP
      (scrap (fun _ => [{ metadata := some { url := "https://example.com/a" }
                          markdown := "hello" }])) none s2
    s3.url_batches = [] ∧ s3.failed_node = "" ∧ s3.retry_count = 1 ∧
      s3.retry_count ≠ 0) := by
  refine ⟨rfl, rfl, rfl, ?_⟩
  decide

/-- C2 amended: retry_count starts at 0 when the run state is created,
grows by exactly 1 on every error_handler pass, and is never reset by
any stage execution, successful or faulting: no stage transition
resets it, so within one run it is monotone non-decreasing (only a new
state creation of a new run returns it to 0). -/
theorem C2_retry_count_never_reset (u : String) (state : GraphState)
    (is_valid : String → String → Bool) (URL_LIMIT BATCH_LIMIT : Nat)
    (crawlData : List CrawlDoc) (fetchData : List String → List Page)
    (fenceExtract : String → Option String) (parseJson : String → Option Summary)
    (llmContent : String → String) (fault : Option String) :
    (init_state u).retry_count = 0 ∧
    (error_handler state).retry_count = state.retry_count + 1 ∧
    (try_except CRAWL (crawl is_valid URL_LIMIT BATCH_LIMIT crawlData) fault
        state).retry_count = state.retry_count ∧
    (try_except SCRAP (scrap fetchData) fault state).retry_count
      = state.retry_count ∧
    (try_except FORMAT (format fenceExtract parseJson llmContent) fault
        state).retry_count = state.retry_count := by
  refine ⟨rfl, rfl, ?_, ?_, ?_⟩
  · cases fault with
    | some msg => rfl
    | none =>
      cases crawlData with
      | nil => rfl
      | cons d rest => rfl
  · cases fault with
    | some msg => rfl
    | none =>
      cases hub : state.url_batches with
      | nil => simp [try_except, scrap, hub]
      | cons b rest =>
        by_cases hd : (fetchData b).isEmpty <;> simp [try_except, scrap, hub, hd]
  · cases fault with
    | some msg => rfl
    | none => rfl

/-- C3 counterexample: a page with non-empty content whose
summarization response is empty. The claim requires a fallback
summary to be appended for the page; the code skips the page instead,
so formatted_data comes out empty. -/
theorem C3_counterexample :
    (format (fun _ => none) (fun _ => none) (fun _ => "")
        { init_state "https://example.com" with
          scraped_data := [{ metadata := some { url := "https://example.com/a" }
                             markdown := "hello" }] }).formatted_data = [] := by
  rfl

/-- C3 amended: when the summarization capability returns no content
(an empty or missing response) for a page, the page IS dropped — no
summary, fallback or otherwise, is appended for it; the fallback entry
is reserved for non-empty responses that fail JSON parsing. -/
theorem C3_empty_response_skips_page (fenceExtract : String → Option String)
    (parseJson : String → Option Summary) (llmContent : String → String)
    (page : Page) (md : PageMetadata) (hm : page.metadata = some md)
    (hmk : page.markdown ≠ "")
    (hllm : llmContent (truncateContent page.markdown) = "") :
    formatPage fenceExtract parseJson llmContent page = [] := by
  simp [formatPage, hm, hmk, hllm]

/-- C3 witness: the amended theorem applied at a concrete page with an
empty summarization response. -/
theorem C3_empty_response_skips_page_witness :
    formatPage (fun _ => none) (fun _ => none) (fun _ => "")
      { metadata := some { url := "https://example.com/a" }, markdown := "hello" }
      = [] :=
  C3_empty_response_skips_page (fun _ => none) (fun _ => none) (fun _ => "")
    _ { url := "https://example.com/a" } rfl (by decide) rfl

/-- C6: a page whose summarization response is present (non-empty) but
whose cleaned content — after stripping any fenced code block — fails
JSON parsing is not dropped and raises nothing past the stage: the
single appended entry is the fallback summary with title exactly
"Error parsing content" and description the first 200 characters of
the truncated content (formatPage is a total function; the parse
failure is absorbed into this value). -/
theorem C6_unparsable_fallback (fenceExtract : String → Option String)
    (parseJson : String → Option Summary) (llmContent : String → String)
    (page : Page) (md : PageMetadata) (hm : page.metadata = some md)
    (hmk : page.markdown ≠ "")
    (hresp : llmContent (truncateContent page.markdown) ≠ "")
    (hparse : parseJson (cleanContent fenceExtract
        (llmContent (truncateContent page.markdown))) = none) :
    formatPage fenceExtract parseJson llmContent page
      = [{ url := md.url
           response := { title := "Error parsing content"
                         description := (truncateContent page.markdown).take 200 } }] := by
  simp [formatPage, hm, hmk, hresp, hparse]

/-- C6 witness: the theorem applied at a concrete page whose response
"not json" fails parsing. -/
theorem C6_unparsable_fallback_witness :
    formatPage (fun _ => none) (fun _ => none) (fun _ => "not json")
      { metadata := some { url := "https://example.com/a" }, markdown := "hello" }
      = [{ url := "https://example.com/a"
           response := { title := "Error parsing content", description := "hello" } }] := by
  have h := C6_unparsable_fallback (fun _ => none) (fun _ => none)
    (fun _ => "not json")
    { metadata := some { url := "https://example.com/a" }, markdown := "hello" }
    { url := "https://example.com/a" } rfl (by decide) (by decide) rfl
  exact h.trans (by decide)

/-- The truncation step never emits more than 2000 characters. -/
theorem truncateContent_length (s : String) : (truncateContent s).length ≤ 2000 := by
  unfold truncateContent
  by_cases h : s.length > 2000
  · rw [if_pos h, String.take_eq, String.mk_length, List.length_take]
    omega
  · rw [if_neg h]
    omega

/-- The format stage consults the summarization capability only on the
truncated content: two capabilities that agree on all strings of
length at most 2000 make formatPage produce identical output. -/
theorem formatPage_llm_congr (fenceExtract : String → Option String)
    (parseJson : String → Option Summary) (llm llm2 : String → String)
    (page : Page)
    (hagree : ∀ t : String, t.length ≤ 2000 → llm t = llm2 t) :
    formatPage fenceExtract parseJson llm page
      = formatPage fenceExtract parseJson llm2 page := by
  unfold formatPage
  cases hm : page.metadata with
  | none => rfl
  | some md =>
    by_cases hmk : page.markdown = ""
    · simp [hmk]
    · have hl := hagree (truncateContent page.markdown)
        (truncateContent_length page.markdown)
      simp [hmk, hl]

/-- C7: the content dispatched to the summarization capability is the
truncation of the page content: it is at most 2000 characters, equals
exactly the first 2000 characters when the content is longer, is the
unchanged content when not — and the output of the stage depends on the
capability only through inputs of length at most 2000 (the capability
never observes a longer string). -/
theorem C7_truncation (s : String) (fenceExtract : String → Option String)
    (parseJson : String → Option Summary) (llm llm2 : String → String)
    (page : Page)
    (hagree : ∀ t : String, t.length ≤ 2000 → llm t = llm2 t) :
    (truncateContent s).length ≤ 2000 ∧
    (s.length > 2000 → truncateContent s = s.take 2000) ∧
    (s.length ≤ 2000 → truncateContent s = s) ∧
    formatPage fenceExtract parseJson llm page
      = formatPage fenceExtract parseJson llm2 page := by
  refine ⟨truncateContent_length s, ?_, ?_,
    formatPage_llm_congr fenceExtract parseJson llm llm2 page hagree⟩
  · intro h
    rw [truncateContent, if_pos h]
  · intro h
    rw [truncateContent, if_neg (by omega)]

/-- C7 witness: the theorem applied at a concrete short string and a
concrete capability pair that agree everywhere. -/
theorem C7_truncation_witness :
    (truncateContent "abc").length ≤ 2000 ∧
    ("abc".length > 2000 → truncateContent "abc" = "abc".take 2000) ∧
    ("abc".length ≤ 2000 → truncateContent "abc" = "abc") ∧
    formatPage (fun _ => none) (fun _ => none) (fun _ => "x")
        { metadata := some { url := "u" }, markdown := "m" }
      = formatPage (fun _ => none) (fun _ => none) (fun _ => "x")
        { metadata := some { url := "u" }, markdown := "m" } :=
  C7_truncation "abc" (fun _ => none) (fun _ => none) (fun _ => "x") (fun _ => "x")
    { metadata := some { url := "u" }, markdown := "m" } (fun _ _ => rfl)

/-- C8: save writes exactly one record (the source url with the
accumulated summaries) to the sink and returns it as the result
precisely when formatted_data is non-empty and the url is set; when
either is empty it writes nothing and yields no result. -/
theorem C8_save_iff (state : GraphState) :
    ((state.url ≠ "" ∧ state.formatted_data ≠ []) →
      save state
        = ([{ source_url := state.url, data := state.formatted_data }],
           some { source_url := state.url, data := state.formatted_data })) ∧
    ((state.url = "" ∨ state.formatted_data = []) →
      save state = ([], none)) := by
  constructor
  · intro h
    simp [save, h]
  · intro h
    have hn : ¬(state.url ≠ "" ∧ state.formatted_data ≠ []) := by
      rcases h with h | h <;> simp [h]
    simp [save, hn]

/-- C8 witness: the theorem applied on the write path at a concrete
state with a url and one summary. -/
theorem C8_save_iff_witness :
    save { init_state "https://example.com" with
           formatted_data := [{ url := "a"
                                response := { title := "T", description := "D" } }] }
      = ([{ source_url := "https://example.com"
            data := [{ url := "a", response := { title := "T", description := "D" } }] }],
         some { source_url := "https://example.com"
                data := [{ url := "a"
                           response := { title := "T", description := "D" } }] }) :=
  (C8_save_iff _).1 ⟨by decide, by decide⟩

/-- C9: get_job_result answers 404 Job not found for an unknown id
whatever the rest of the store holds, 425 while the looked-up job is
pending or running, and 500 carrying the stored error description
while it is failed. -/
theorem C9_result_guard (store : JobsStore) (job_id : String) (job : Job) :
    (storeLookup store job_id = none →
      get_job_result store job_id
        = Except.error { status_code := 404, detail := "Job not found" }) ∧
    (storeLookup store job_id = some job →
      ((job.status = JobStatus.pending ∨ job.status = JobStatus.running →
        get_job_result store job_id
          = Except.error { status_code := 425
                           detail := "Job is still " ++ job.status.toStr
                             ++ ". Please wait for completion." }) ∧
      (∀ e, job.status = JobStatus.failed → job.error = some e →
        get_job_result store job_id
          = Except.error { status_code := 500
                           detail := "Job failed: " ++ e }))) := by
  constructor
  · intro h
    simp [get_job_result, h]
  · intro h
    constructor
    · intro hs
      simp [get_job_result, h, hs]
    · intro e hs he
      have hnp : ¬(job.status = JobStatus.pending ∨ job.status = JobStatus.running) := by
        rw [hs]
        decide
      simp [get_job_result, h, hnp, hs, he, errorText]

/-- C9 witness: the theorem applied to a store holding one failed job
with a stored error. -/
theorem C9_result_guard_witness :
    get_job_result
        [("j1", { job_id := "j1", url := "https://example.com"
                  status := JobStatus.failed, created_at := "t0"
                  completed_at := some "t1", result := none
                  error := some "boom" })] "j1"
      = Except.error { status_code := 500, detail := "Job failed: " ++ "boom" } :=
  (((C9_result_guard
      [("j1", { job_id := "j1", url := "https://example.com"
                status := JobStatus.failed, created_at := "t0"
                completed_at := some "t1", result := none
                error := some "boom" })] "j1"
      { job_id := "j1", url := "https://example.com"
        status := JobStatus.failed, created_at := "t0"
        completed_at := some "t1", result := none
        error := some "boom" }).2 rfl).2) "boom" rfl rfl

/-- C10: when a run completes normally but save produced no result
payload (degenerate success), the synchronous endpoint answers HTTP
500 with the no-data message wrapped by its except clause — never
200. -/
theorem C10_sync_degenerate_500 (state : GraphState)
    (h : (save state).2 = none) :
    scrape_sync_finish (save state).2
      = Except.error { status_code := 500
                       detail := "Scraping failed: 500: Scraping completed but no data was returned" } := by
  rw [h]
  rfl

/-- C10 witness: the theorem applied to a fresh run state whose save
is a no-op. -/
theorem C10_sync_degenerate_500_witness :
    scrape_sync_finish (save (init_state "https://example.com")).2
      = Except.error { status_code := 500
                       detail := "Scraping failed: 500: Scraping completed but no data was returned" } :=
  C10_sync_degenerate_500 (init_state "https://example.com") rfl

/-- C4: evaluated at the failing input — the job record deleted from
the store before the run finished — the completion write of
run_scraping_job raises KeyError inside the try block, the except
first write of the except handler itself raises KeyError again, and that exception
escapes the function: the background task crashes instead of treating
the write-after-delete as a no-op, contradicting the specified
behaviour. -/
theorem C4_write_after_delete_crashes :
    run_scraping_job [] "job-1"
        (Except.ok (some { source_url := "https://example.com", data := [] }))
        "2026-10-12T00:00:00"
      = ([], some (PyError.keyError "job-1")) := by
  rfl

end WebScraper
